import Mathlib

/-
Verification development for the PharmaLens repository.

The embedding mirrors the JavaScript sources:
  * server/src/services/aiEngineService.js  (gateway calls into the analysis
    engine, mock fallback payloads)
  * server/src/routes/watchlist.js          (watchlist CRUD over an in-memory
    array)
  * server/src/controllers/researchController.js (POST /api/research handler,
    reproduced verbatim inside docs/implementation/AGENT_DETAIL_PANEL_FIX.md)
  * client/src/pages/ResearchDashboard.jsx  (form submission guard)
  * client/src/context/ResearchContext.jsx  (research history)
  * the analysis-service agent fan-out, which is not part of the snapshot and
    is modelled from the specification where noted.

JavaScript values that flow through these functions are JSON-like trees;
`JVal` models them, with IEEE-754 doubles abstracted to rationals and the
successive `Math.random()` draws of one call abstracted to an explicit stream
`r : Nat → ℚ` (draw i is `r i`, conceptually in [0,1)).
-/

set_option autoImplicit false

/-- JSON-like values exchanged between the services: strings, numbers
(doubles abstracted to rationals), booleans, arrays and objects with ordered
fields. -/
inductive JVal where
  | str (s : String)
  | num (q : ℚ)
  | bool (b : Bool)
  | arr (xs : List JVal)
  | obj (fields : List (String × JVal))

/-- Top-level key list of a JSON object (empty for non-objects). -/
def topKeys : JVal → List String
  | JVal.obj fields => fields.map Prod.fst
  | _ => []

/-- Field lookup on a JSON object, first match wins (JS property access). -/
def objGet : JVal → String → Option JVal
  | JVal.obj fields, k => lookupField fields k
  | _, _ => none
where
  lookupField : List (String × JVal) → String → Option JVal
    | [], _ => none
    | (k, v) :: rest, k2 => if k = k2 then some v else lookupField rest k2

/-- One level of shape information: every top-level key together with the key
list of its value. Used to compare the shapes of two mock payloads. -/
def sectionKeys : JVal → List (String × List String)
  | JVal.obj fields => fields.map (fun kv => (kv.fst, topKeys kv.snd))
  | _ => []

/-- Insert-or-overwrite one field, as the JS object-spread does: an existing
key keeps its position and receives the new value, a new key is appended. -/
def objUpsert : List (String × JVal) → String → JVal → List (String × JVal)
  | [], k, v => [(k, v)]
  | (k0, v0) :: rest, k, v =>
    if k0 = k then (k0, v) :: rest else (k0, v0) :: objUpsert rest k v

/-- JS object spread `{...base, extra...}`: start from the base object's
fields (an empty field set when the base is not an object) and upsert each
extra field in order. -/
def jsSpread (base : JVal) : List (String × JVal) → JVal :=
  fun extra =>
    JVal.obj (extra.foldl (fun acc kv => objUpsert acc kv.fst kv.snd) (baseFields base))
where
  baseFields : JVal → List (String × JVal)
    | JVal.obj fields => fields
    | _ => []

/-- Number.prototype.toFixed(1) on a non-negative value, abstracted to exact
rational rounding: round half away from zero to one decimal and print
"int.frac". -/
def toFixed1 (q : ℚ) : String :=
  let n : Int := Rat.floor (q * 10 + 1 / 2)
  toString (n / 10) ++ ("." : String) ++ toString (n % 10)

/-- Number.prototype.toFixed(0) on a non-negative value, abstracted to exact
rational rounding to the nearest integer. -/
def toFixed0 (q : ℚ) : String :=
  toString (Rat.floor (q + 1 / 2))

/-- parseFloat(x.toFixed(1)): round to one decimal, back as a number. -/
def roundTo1 (q : ℚ) : ℚ :=
  (Rat.floor (q * 10 + 1 / 2) : ℚ) / 10

/-- getMockROIData from aiEngineService.js: synthetic ROI payload; the five
Math.random() draws of the call are r 0 .. r 4 in source order. -/
def getMockROIData (molecule : String) (r : Nat → ℚ) : JVal :=
  let revenue : Int := Rat.floor (r 0 * 400) + 100
  let developmentCost : Int := Rat.floor (r 1 * 80) + 40
  let roi : ℚ := roundTo1 (((revenue : ℚ) - (developmentCost : ℚ)) / (developmentCost : ℚ) * 100)
  JVal.obj [
    (("molecule" : String), JVal.str molecule),
    (("projected_revenue_millions" : String), JVal.num (revenue : ℚ)),
    (("development_cost_millions" : String), JVal.num (developmentCost : ℚ)),
    (("roi_percentage" : String), JVal.num roi),
    (("market_size_billions" : String), JVal.str (toFixed1 (r 2 * 20 + 5))),
    (("time_to_market_years" : String), JVal.str (toFixed1 (r 3 * 3 + 2))),
    (("probability_of_success" : String), JVal.str (toFixed0 (r 4 * 30 + 50) ++ ("%" : String))),
    (("competitive_landscape" : String), JVal.str ("Moderate")),
    (("recommendation" : String),
      JVal.str (if revenue > 300 then ("STRONG_BUY" : String)
                else if revenue > 200 then ("BUY" : String) else ("HOLD" : String)))
  ]

/-- getMockAnalysisResults from aiEngineService.js: synthetic multi-agent
payload. getMockROIData runs first and consumes draws r 0 .. r 4; the object
literal then consumes r 5 .. r 8 in source order. -/
def getMockAnalysisResults (molecule requestId : String) (r : Nat → ℚ) : JVal :=
  let mockROI := getMockROIData molecule r
  JVal.obj [
    (("requestId" : String), JVal.str requestId),
    (("molecule" : String), JVal.str molecule),
    (("agents_executed" : String), JVal.arr [
      JVal.obj [(("name" : String), JVal.str ("ClinicalAgent")),
        (("status" : String), JVal.str ("completed")),
        (("duration_ms" : String), JVal.num 1200)],
      JVal.obj [(("name" : String), JVal.str ("PatentAgent")),
        (("status" : String), JVal.str ("completed")),
        (("duration_ms" : String), JVal.num 800)],
      JVal.obj [(("name" : String), JVal.str ("MarketAgent")),
        (("status" : String), JVal.str ("completed")),
        (("duration_ms" : String), JVal.num 1500)],
      JVal.obj [(("name" : String), JVal.str ("VisionAgent")),
        (("status" : String), JVal.str ("completed")),
        (("duration_ms" : String), JVal.num 2000)]
    ]),
    (("clinical" : String), JVal.obj [
      (("trials_found" : String), JVal.num ((Rat.floor (r 5 * 50) : ℚ) + 10)),
      (("indications" : String), JVal.arr [JVal.str ("Oncology"),
        JVal.str ("Immunology"), JVal.str ("Neurology")]),
      (("phase_distribution" : String), JVal.obj [
        (("phase1" : String), JVal.num 5), (("phase2" : String), JVal.num 12),
        (("phase3" : String), JVal.num 8), (("phase4" : String), JVal.num 3)]),
      (("safety_score" : String), JVal.str (toFixed1 (r 6 * 2 + 7)))
    ]),
    (("patent" : String), JVal.obj [
      (("active_patents" : String), JVal.num ((Rat.floor (r 7 * 20) : ℚ) + 5)),
      (("expiration_date" : String), JVal.str ("2028-06-15")),
      (("freedom_to_operate" : String), JVal.str ("Medium")),
      (("key_holders" : String), JVal.arr [JVal.str ("Pfizer"),
        JVal.str ("Novartis"), JVal.str ("Roche")])
    ]),
    (("market" : String), mockROI),
    (("vision" : String), JVal.obj [
      (("molecular_structure_analyzed" : String), JVal.bool true),
      (("binding_sites_identified" : String), JVal.num ((Rat.floor (r 8 * 5) : ℚ) + 2)),
      (("similarity_compounds" : String), JVal.arr [JVal.str ("Compound A"),
        JVal.str ("Compound B"), JVal.str ("Compound C")])
    ]),
    (("knowledge_graph" : String), JVal.obj [
      (("nodes" : String), JVal.num 156), (("edges" : String), JVal.num 423),
      (("key_pathways" : String), JVal.arr [JVal.str ("PI3K/AKT"),
        JVal.str ("MAPK/ERK"), JVal.str ("JAK/STAT")])
    ])
  ]

/-- Error codes an axios call can fail with; ECONNREFUSED and ETIMEDOUT are
the two the gateway treats specially, every other code is collapsed into
`other`. -/
inductive ErrCode where
  | ECONNREFUSED
  | ETIMEDOUT
  | other (code : String)
deriving DecidableEq

/-- Outcome of one upstream HTTP call: either a response body or a failure
carrying an error code. -/
inductive UpstreamOutcome where
  | success (data : JVal)
  | failure (code : ErrCode)

/-- analyzeCompound from aiEngineService.js: forward the engine response;
on ECONNREFUSED or ETIMEDOUT fall back to the mock payload; re-throw every
other error (`Except.error`). -/
def analyzeCompound (molecule requestId : String) (r : Nat → ℚ)
    (upstream : UpstreamOutcome) : Except ErrCode JVal :=
  match upstream with
  | UpstreamOutcome.success data => Except.ok data
  | UpstreamOutcome.failure code =>
    if code = ErrCode.ECONNREFUSED ∨ code = ErrCode.ETIMEDOUT then
      Except.ok (getMockAnalysisResults molecule requestId r)
    else
      Except.error code

/-- getROICalculation from aiEngineService.js: forward the engine response;
the catch block covers every error and falls back to the mock ROI payload,
so no error ever propagates. -/
def getROICalculation (molecule : String) (r : Nat → ℚ)
    (upstream : UpstreamOutcome) : Except ErrCode JVal :=
  match upstream with
  | UpstreamOutcome.success data => Except.ok data
  | UpstreamOutcome.failure _ => Except.ok (getMockROIData molecule r)

/-- Per-item alert preferences of a watchlist entry (watchlist.js). -/
structure AlertPrefs where
  clinicalTrials : Bool
  patents : Bool
  publications : Bool
  regulatory : Bool
  frequency : String
deriving DecidableEq

/-- Default alert preferences applied when the POST body supplies none. -/
def defaultAlertPrefs : AlertPrefs :=
  { clinicalTrials := true, patents := true, publications := true,
    regulatory := true, frequency := ("daily" : String) }

/-- One entry of the in-memory watchlistItems array (watchlist.js). -/
structure WatchItem where
  id : String
  userId : String
  molecule : String
  disease : Option String
  alertPreferences : AlertPrefs
  createdAt : String
  lastChecked : Option String
  alertCount : Nat
deriving DecidableEq

/-- The new item built by POST /api/watchlist: fresh uuid, the requesting
user, the given molecule, `disease || null`, `alertPreferences || defaults`,
creation timestamp, lastChecked null, alertCount 0. -/
def mkWatchItem (freshId now userId molecule : String) (disease : Option String)
    (prefs : Option AlertPrefs) : WatchItem :=
  { id := freshId, userId := userId, molecule := molecule,
    disease := disease.bind (fun s => if s = "" then none else some s),
    alertPreferences := prefs.getD defaultAlertPrefs,
    createdAt := now, lastChecked := none, alertCount := 0 }

/-- String.prototype.toLowerCase(), structurally over the character list so
it evaluates inside the kernel. -/
def jsToLower (s : String) : String :=
  String.mk (s.data.map Char.toLower)

/-- The duplicate check of POST /api/watchlist: some existing item of the
same user whose molecule matches case-insensitively. -/
def hasDuplicate (userId molecule : String) (items : List WatchItem) : Bool :=
  items.any (fun item => item.userId == userId && jsToLower item.molecule == jsToLower molecule)

/-- POST /api/watchlist from watchlist.js, as a function of the current
in-memory array. A missing molecule — and an empty string, which is falsy in
JS — yields 400; a case-insensitive duplicate for the same user yields 409;
otherwise the new item is pushed onto the array and 201 returned. -/
def postWatchlist (freshId now userId : String) (molecule disease : Option String)
    (prefs : Option AlertPrefs) (items : List WatchItem) : Nat × List WatchItem :=
  match molecule with
  | none => (400, items)
  | some m =>
    if m = "" then (400, items)
    else if hasDuplicate userId m items then (409, items)
    else (201, items ++ [mkWatchItem freshId now userId m disease prefs])

/-- DELETE /api/watchlist/:id from watchlist.js: findIndex over the array for
an item with the given id owned by the requesting user, 404 when the index is
-1, otherwise splice(index, 1) removes that single element. -/
def deleteWatchlist (userId pathId : String) (items : List WatchItem) : Nat × List WatchItem :=
  let itemIndex := items.findIdx (fun item => item.id == pathId && item.userId == userId)
  if itemIndex = items.length then (404, items)
  else (200, items.eraseIdx itemIndex)

/-- A JSON body field as the research controller sees it: a string, or a
value of any other type (rejected by the typeof check). -/
inductive ReqVal where
  | jstr (s : String)
  | jother
deriving DecidableEq

/-- Body of POST /api/research: molecule, mode and provider, each possibly
absent (absent mode defaults to cloud in the controller). -/
structure ResearchReq where
  molecule : Option ReqVal
  mode : Option String
  provider : Option String

/-- What one call of the research controller produced: HTTP status, JSON
response body, and whether the agent fan-out (aiEngineService.analyzeCompound)
was dispatched. -/
structure ResearchResult where
  status : Nat
  body : JVal
  dispatched : Bool

/-- processResearch from researchController.js (reproduced in
docs/implementation/AGENT_DETAIL_PANEL_FIX.md): validate molecule (missing,
non-string or falsy-empty gives 400), validate mode against [secure, cloud]
(400), then call analyzeCompound; a thrown error gives the generic 500 body,
success gives the 200 body whose `results` field spreads the engine payload
and adds processingTimeMs. -/
def processResearch (requestId now : String) (duration : Nat) (r : Nat → ℚ)
    (body : ResearchReq) (engine : UpstreamOutcome) : ResearchResult :=
  match body.molecule with
  | some (ReqVal.jstr m) =>
    if m = "" then
      { status := 400,
        body := JVal.obj [(("success" : String), JVal.bool false),
          (("error" : String), JVal.str ("Molecule name is required")),
          (("requestId" : String), JVal.str requestId)],
        dispatched := false }
    else
      let mode := body.mode.getD ("cloud" : String)
      if mode = ("secure" : String) ∨ mode = ("cloud" : String) then
        match analyzeCompound m requestId r engine with
        | Except.error _ =>
          { status := 500,
            body := JVal.obj [(("success" : String), JVal.bool false),
              (("error" : String), JVal.str ("Research processing failed")),
              (("message" : String), JVal.str ("Internal server error")),
              (("requestId" : String), JVal.str requestId)],
            dispatched := true }
        | Except.ok analysisResults =>
          { status := 200,
            body := JVal.obj [(("success" : String), JVal.bool true),
              (("requestId" : String), JVal.str requestId),
              (("molecule" : String), JVal.str m),
              (("processingMode" : String), JVal.str mode),
              (("modelUsed" : String),
                JVal.str (if mode = ("secure" : String) then ("llama3-local" : String)
                          else ("gpt-4" : String))),
              (("results" : String),
                jsSpread analysisResults [(("processingTimeMs" : String), JVal.num (duration : ℚ))]),
              (("metadata" : String), JVal.obj [
                (("timestamp" : String), JVal.str now),
                (("version" : String), JVal.str ("1.0.0")),
                (("complianceMode" : String),
                  JVal.str (if mode = ("secure" : String) then ("HIPAA_COMPLIANT" : String)
                            else ("STANDARD" : String)))])],
            dispatched := true }
      else
        { status := 400,
          body := JVal.obj [(("success" : String), JVal.bool false),
            (("error" : String), JVal.str ("Invalid mode. Must be one of: secure, cloud")),
            (("requestId" : String), JVal.str requestId)],
          dispatched := false }
  | some ReqVal.jother =>
    { status := 400,
      body := JVal.obj [(("success" : String), JVal.bool false),
        (("error" : String), JVal.str ("Molecule name is required")),
        (("requestId" : String), JVal.str requestId)],
      dispatched := false }
  | none =>
    { status := 400,
      body := JVal.obj [(("success" : String), JVal.bool false),
        (("error" : String), JVal.str ("Molecule name is required")),
        (("requestId" : String), JVal.str requestId)],
      dispatched := false }

/-- Outcome of the client-side submit guard in ResearchDashboard.jsx: the
error message set (if any) and whether researchService.analyze was called. -/
structure ClientSubmit where
  errorMsg : Option String
  apiCalled : Bool
deriving DecidableEq

/-- String.prototype.trim(): drop leading and trailing whitespace. Defined
structurally over the character list so it evaluates inside the kernel. -/
def jsTrim (s : String) : String :=
  String.mk (((s.data.dropWhile Char.isWhitespace).reverse.dropWhile Char.isWhitespace).reverse)

/-- handleSubmit from ResearchDashboard.jsx, restricted to its input guard:
a drug name that is blank after trimming sets an error message and returns
before the research API is called. -/
def handleSubmit (drugName : String) : ClientSubmit :=
  if jsTrim drugName = "" then
    { errorMsg := some ("Please enter a drug or molecule name"), apiCalled := false }
  else
    { errorMsg := none, apiCalled := true }

/-- addToHistory from ResearchContext.jsx: prepend the research record
stamped with the current time, keeping only the first 9 previous entries. -/
def addToHistory (now : String) (research : JVal) (prev : List JVal) : List JVal :=
  jsSpread research [(("timestamp" : String), JVal.str now)] :: prev.take 9

/-- clearHistory from ResearchContext.jsx: reset the history to empty. -/
def clearHistory : List JVal := []

/-- Modelled from the spec: the analysis-service orchestrator (the Python
`_execute_agents`, only sketched inside the repository's docs) dispatches a
fixed set of named independent agent tasks. Each task is abstracted by its
name, the wall-clock duration it would need to finish, and the value or
error it would produce if allowed to finish. -/
structure AgentTask where
  name : String
  duration : Nat
  outcome : Except String JVal

/-- Modelled from the spec: an entry of the aggregated result mapping — a
valid payload, a caught per-task error, or a typed timeout marker. -/
inductive TaskEntry where
  | ok (payload : JVal)
  | error (msg : String)
  | timedOut

/-- Modelled from the spec: running one task under the per-task timeout T.
A task needing more than T raises the typed timeout error, caught and
recorded; otherwise its own outcome (value or caught error) is recorded. -/
def runTask (T : Nat) (t : AgentTask) : TaskEntry :=
  if T < t.duration then TaskEntry.timedOut
  else
    match t.outcome with
    | Except.ok payload => TaskEntry.ok payload
    | Except.error msg => TaskEntry.error msg

/-- Modelled from the spec: the fan-out/fan-in — every named task is run
under the per-task timeout and its labelled entry collected; no entry is
ever dropped or cancelled by a sibling. -/
def fanOut (T : Nat) (tasks : List AgentTask) : List (String × TaskEntry) :=
  tasks.map (fun t => (t.name, runTask T t))

/-- A task fails or times out when its duration exceeds the timeout or its
own outcome is an error. -/
def failsOrTimesOut (T : Nat) (t : AgentTask) : Bool :=
  decide (T < t.duration) ||
    (match t.outcome with
     | Except.error _ => true
     | Except.ok _ => false)

/-- An aggregated entry that is an error marker (caught error or timeout). -/
def isErrEntry : TaskEntry → Bool
  | TaskEntry.ok _ => false
  | TaskEntry.error _ => true
  | TaskEntry.timedOut => true

/-- Modelled from the spec: the wall-clock contribution of one task under
timeout T — a task is cut off at T, a faster task contributes its own
duration. -/
def effDuration (T : Nat) (t : AgentTask) : Nat :=
  min t.duration T

/-- Modelled from the spec: total wall-clock duration of the concurrent
fan-out — a fixed scheduling overhead plus the maximum of the tasks'
effective durations (not their sum). -/
def wallClock (T overhead : Nat) (tasks : List AgentTask) : Nat :=
  overhead + (tasks.map (effDuration T)).foldr max 0

/-- Whether an aggregated entry is an error marker is decided exactly by
whether the task fails or times out. -/
theorem isErrEntry_runTask (T : Nat) (t : AgentTask) :
    isErrEntry (runTask T t) = failsOrTimesOut T t := by
  by_cases h : T < t.duration
  · simp [runTask, failsOrTimesOut, isErrEntry, h]
  · cases ho : t.outcome <;> simp [runTask, failsOrTimesOut, isErrEntry, h, ho]

/-- The maximum of a list of naturals all bounded by T is bounded by T. -/
theorem foldr_max_le_of_all_le (T : Nat) (l : List Nat) (h : ∀ x ∈ l, x ≤ T) :
    l.foldr max 0 ≤ T := by
  induction l with
  | nil => exact Nat.zero_le T
  | cons x xs ih =>
    simp only [List.foldr_cons]
    exact max_le (h x (List.mem_cons_self x xs))
      (ih (fun y hy => h y (List.mem_cons_of_mem x hy)))

/-- If no element satisfies the predicate, findIdx runs off the end. -/
theorem findIdx_eq_length_of_all_false {α : Type} (p : α → Bool) (l : List α)
    (h : ∀ a ∈ l, p a = false) : l.findIdx p = l.length := by
  induction l with
  | nil => rfl
  | cons a l ih =>
    have ha : p a = false := h a (List.mem_cons_self a l)
    simp [List.findIdx_cons, ha,
      ih (fun x hx => h x (List.mem_cons_of_mem a hx))]

/-- If some element satisfies the predicate, findIdx stays in range. -/
theorem findIdx_lt_length_of_countP_pos {α : Type} (p : α → Bool) (l : List α)
    (h : 0 < l.countP p) : l.findIdx p < l.length := by
  induction l with
  | nil => simp at h
  | cons a l ih =>
    by_cases ha : p a = true
    · simp [List.findIdx_cons, ha]
    · have ha2 : p a = false := by revert ha; cases p a <;> simp
      have hc : 0 < l.countP p := by simpa [List.countP_cons, ha2] using h
      have h2 := ih hc
      simp only [List.findIdx_cons, ha2, cond_false, List.length_cons]
      omega

/-- When exactly one element satisfies the predicate, erasing the element at
the first matching index is the same as filtering all matches out. -/
theorem eraseIdx_findIdx_eq_filter {α : Type} (p : α → Bool) (l : List α)
    (h : l.countP p = 1) :
    l.eraseIdx (l.findIdx p) = l.filter (fun a => !p a) := by
  induction l with
  | nil => simp at h
  | cons a l ih =>
    by_cases ha : p a = true
    · have hc : l.countP p = 0 := by simpa [List.countP_cons, ha] using h
      have hall : ∀ x ∈ l, ¬ p x = true := List.countP_eq_zero.mp hc
      have hfilter : l.filter (fun a => !p a) = l :=
        List.filter_eq_self.mpr (fun x hx => by simp [hall x hx])
      simp [List.findIdx_cons, ha, List.filter_cons, hfilter]
    · have ha2 : p a = false := by revert ha; cases p a <;> simp
      have hc : l.countP p = 1 := by simpa [List.countP_cons, ha2] using h
      have ih2 := ih hc
      simp [List.findIdx_cons, ha2, List.filter_cons, ih2]

/-- The upserted key is always among the keys of the updated field list. -/
theorem key_mem_objUpsert (kvs : List (String × JVal)) (k : String) (v : JVal) :
    k ∈ (objUpsert kvs k v).map Prod.fst := by
  induction kvs with
  | nil => simp [objUpsert]
  | cons kv rest ih =>
    by_cases hk : kv.fst = k
    · simp [objUpsert, hk]
    · simp only [objUpsert, hk, if_false, List.map_cons, List.mem_cons]
      exact Or.inr ih

/-- Spreading one extra field into any base value puts its key among the
top-level keys of the result. -/
theorem key_mem_jsSpread (base : JVal) (k : String) (x : JVal) :
    k ∈ topKeys (jsSpread base [(k, x)]) := by
  simp only [jsSpread, List.foldl_cons, List.foldl_nil, topKeys]
  exact key_mem_objUpsert _ k x

/-- C1: for every fan-out of named tasks under per-task timeout T, the
aggregated mapping keeps all task names in order (no sibling is cancelled or
removed); the number of error-marker entries equals the number of tasks that
fail or time out; and every task that neither fails nor times out appears
with its own valid payload. -/
theorem fanOutIsolation (T : Nat) (tasks : List AgentTask) :
    (fanOut T tasks).map Prod.fst = tasks.map AgentTask.name
    ∧ ((fanOut T tasks).filter (fun e => isErrEntry e.snd)).length
        = (tasks.filter (failsOrTimesOut T)).length
    ∧ ∀ t ∈ tasks, ∀ payload, t.outcome = Except.ok payload → ¬ T < t.duration →
        (t.name, TaskEntry.ok payload) ∈ fanOut T tasks := by
  refine ⟨by simp [fanOut], ?_, ?_⟩
  · induction tasks with
    | nil => rfl
    | cons t ts ih =>
      simp only [fanOut, List.map_cons, List.filter_cons, isErrEntry_runTask]
      cases hf : failsOrTimesOut T t
      · simpa [fanOut] using ih
      · simpa [fanOut] using ih
  · intro t hmem payload ho hd
    have h1 : (t.name, runTask T t) ∈ fanOut T tasks :=
      List.mem_map_of_mem (fun t => (t.name, runTask T t)) hmem
    have h2 : runTask T t = TaskEntry.ok payload := by simp [runTask, hd, ho]
    rwa [h2] at h1

/-- C1 witness: three concrete tasks (one valid, one failing, one slower
than the timeout) — the surviving task's payload is present, all three names
are kept, and exactly two entries are error markers. -/
theorem fanOutIsolation_witness :
    ((("clinical" : String), TaskEntry.ok (JVal.str ("ok-result"))) ∈ fanOut 5 [
       { name := ("clinical" : String), duration := 3, outcome := Except.ok (JVal.str ("ok-result")) },
       { name := ("patent" : String), duration := 2, outcome := Except.error ("boom") },
       { name := ("market" : String), duration := 11, outcome := Except.ok (JVal.num 1) }])
    ∧ (fanOut 5 [
       { name := ("clinical" : String), duration := 3, outcome := Except.ok (JVal.str ("ok-result")) },
       { name := ("patent" : String), duration := 2, outcome := Except.error ("boom") },
       { name := ("market" : String), duration := 11, outcome := Except.ok (JVal.num 1) }]).map Prod.fst
       = [("clinical" : String), ("patent" : String), ("market" : String)]
    ∧ ((fanOut 5 [
       { name := ("clinical" : String), duration := 3, outcome := Except.ok (JVal.str ("ok-result")) },
       { name := ("patent" : String), duration := 2, outcome := Except.error ("boom") },
       { name := ("market" : String), duration := 11, outcome := Except.ok (JVal.num 1) }]).filter
         (fun e => isErrEntry e.snd)).length = 2 := by
  refine ⟨?_, ?_, ?_⟩
  · exact (fanOutIsolation 5 _).2.2 _ (List.mem_cons_self _ _) _ rfl (by decide)
  · exact (fanOutIsolation 5 _).1
  · rfl

/-- C2: analyzeCompound forwards a successful engine response, substitutes
the mock analysis payload exactly for the ECONNREFUSED and ETIMEDOUT failure
codes and re-throws every other error; getROICalculation forwards success
and substitutes the mock ROI payload for every failure, never propagating an
error. -/
theorem gatewayFallbackPolicy (molecule requestId : String) (r : Nat → ℚ) :
    (∀ data, analyzeCompound molecule requestId r (UpstreamOutcome.success data) = Except.ok data)
    ∧ analyzeCompound molecule requestId r (UpstreamOutcome.failure ErrCode.ECONNREFUSED)
        = Except.ok (getMockAnalysisResults molecule requestId r)
    ∧ analyzeCompound molecule requestId r (UpstreamOutcome.failure ErrCode.ETIMEDOUT)
        = Except.ok (getMockAnalysisResults molecule requestId r)
    ∧ (∀ code, analyzeCompound molecule requestId r (UpstreamOutcome.failure (ErrCode.other code))
        = Except.error (ErrCode.other code))
    ∧ (∀ data, getROICalculation molecule r (UpstreamOutcome.success data) = Except.ok data)
    ∧ (∀ code, getROICalculation molecule r (UpstreamOutcome.failure code)
        = Except.ok (getMockROIData molecule r)) := by
  refine ⟨fun data => rfl, rfl, rfl, fun code => by simp [analyzeCompound],
    fun data => rfl, fun code => rfl⟩

/-- C3: with no provider available, the shape of the mock payloads — the
top-level key set and, one level down, the key set of every section — is the
same for any two randomness streams, so it is a pure function of the
molecule name and request identity. -/
theorem mockShapeDeterministic (molecule requestId : String) (r1 r2 : Nat → ℚ) :
    sectionKeys (getMockAnalysisResults molecule requestId r1)
      = sectionKeys (getMockAnalysisResults molecule requestId r2)
    ∧ topKeys (getMockAnalysisResults molecule requestId r1)
      = topKeys (getMockAnalysisResults molecule requestId r2)
    ∧ sectionKeys (getMockROIData molecule r1) = sectionKeys (getMockROIData molecule r2)
    ∧ topKeys (getMockROIData molecule r1) = topKeys (getMockROIData molecule r2) :=
  ⟨rfl, rfl, rfl, rfl⟩

/-- C6: a task whose duration exceeds the per-task timeout T is recorded in
the aggregated mapping as the typed timeout marker, and the whole
aggregation still completes within the scheduling overhead plus T. -/
theorem perTaskTimeoutBound (T overhead : Nat) (t : AgentTask) (tasks : List AgentTask)
    (hmem : t ∈ tasks) (hd : T < t.duration) :
    (t.name, TaskEntry.timedOut) ∈ fanOut T tasks
    ∧ wallClock T overhead tasks ≤ overhead + T := by
  constructor
  · have h1 : (t.name, runTask T t) ∈ fanOut T tasks :=
      List.mem_map_of_mem (fun t => (t.name, runTask T t)) hmem
    have h2 : runTask T t = TaskEntry.timedOut := by simp [runTask, hd]
    rwa [h2] at h1
  · refine Nat.add_le_add_left ?_ overhead
    refine foldr_max_le_of_all_le T _ (fun x hx => ?_)
    obtain ⟨u, _, hu⟩ := List.mem_map.mp hx
    exact hu ▸ min_le_right u.duration T

/-- C6 witness: with timeout 5, a task that would run for 10 (twice the
timeout) is recorded as timed out and the fan-out finishes within
overhead 1 plus 5. -/
theorem perTaskTimeoutBound_witness :
    ((("market" : String), TaskEntry.timedOut) ∈ fanOut 5 [
       { name := ("market" : String), duration := 10, outcome := Except.ok (JVal.num 1) },
       { name := ("clinical" : String), duration := 3, outcome := Except.ok (JVal.num 2) }])
    ∧ wallClock 5 1 [
       { name := ("market" : String), duration := 10, outcome := Except.ok (JVal.num 1) },
       { name := ("clinical" : String), duration := 3, outcome := Except.ok (JVal.num 2) }] ≤ 1 + 5 :=
  perTaskTimeoutBound 5 1 _ _ (List.mem_cons_self _ _) (by decide)

/-- C7: when no task is cut off by the timeout, the wall-clock duration of
the fan-out equals the fixed overhead plus the duration of the slowest task
— the maximum of the individual durations, not their sum. -/
theorem fanOutConcurrentBound (T overhead : Nat) (tasks : List AgentTask)
    (h : ∀ t ∈ tasks, t.duration ≤ T) :
    wallClock T overhead tasks
      = overhead + (tasks.map AgentTask.duration).foldr max 0 := by
  unfold wallClock
  congr 1
  congr 1
  induction tasks with
  | nil => rfl
  | cons t ts ih =>
    simp only [List.map_cons]
    rw [show effDuration T t = t.duration from
        Nat.min_eq_left (h t (List.mem_cons_self t ts)),
      ih (fun u hu => h u (List.mem_cons_of_mem t hu))]

/-- C7 witness: the specification's example — five concurrent tasks of two
seconds each complete in overhead 1 plus 2, far below the sequential sum of
10. -/
theorem fanOutConcurrentBound_witness :
    wallClock 60 1 [
      { name := ("a1" : String), duration := 2, outcome := Except.ok (JVal.num 1) },
      { name := ("a2" : String), duration := 2, outcome := Except.ok (JVal.num 2) },
      { name := ("a3" : String), duration := 2, outcome := Except.ok (JVal.num 3) },
      { name := ("a4" : String), duration := 2, outcome := Except.ok (JVal.num 4) },
      { name := ("a5" : String), duration := 2, outcome := Except.ok (JVal.num 5) }]
      = 1 + 2
    ∧ 1 + 2 < 2 + 2 + 2 + 2 + 2 := by
  constructor
  · exact fanOutConcurrentBound 60 1 _ (by decide)
  · decide

/-- C10: the research history is bounded — addToHistory prepends the
time-stamped record and keeps only the first nine previous entries, so the
result never exceeds ten entries whatever the previous history was, and
clearHistory resets the history to empty. -/
theorem historyBound (now : String) (research : JVal) (prev : List JVal) :
    (addToHistory now research prev).length ≤ 10
    ∧ addToHistory now research prev
        = jsSpread research [(("timestamp" : String), JVal.str now)] :: prev.take 9
    ∧ clearHistory = ([] : List JVal) := by
  refine ⟨?_, rfl, rfl⟩
  simp only [addToHistory, List.length_cons, List.length_take]
  omega

/-- C4: a missing or empty molecule name is rejected everywhere before any
agent work happens — the client guard sets an error message and never calls
the research API, the research route answers 400 without dispatching the
engine call, and the watchlist route answers 400 leaving the array
unchanged. -/
theorem emptyMoleculeRejected :
    (∀ drugName : String, jsTrim drugName = ("" : String) →
       handleSubmit drugName
         = { errorMsg := some ("Please enter a drug or molecule name"), apiCalled := false })
    ∧ (∀ (requestId now : String) (duration : Nat) (r : Nat → ℚ)
         (body : ResearchReq) (engine : UpstreamOutcome),
         (body.molecule = none ∨ body.molecule = some (ReqVal.jstr (""))) →
         (processResearch requestId now duration r body engine).status = 400
         ∧ (processResearch requestId now duration r body engine).dispatched = false)
    ∧ (∀ (freshId now userId : String) (molecule disease : Option String)
         (prefs : Option AlertPrefs) (items : List WatchItem),
         (molecule = none ∨ molecule = some ("")) →
         postWatchlist freshId now userId molecule disease prefs items = (400, items)) := by
  refine ⟨?_, ?_, ?_⟩
  · intro drugName hd
    simp [handleSubmit, hd]
  · intro requestId now duration r body engine hmol
    rcases hmol with h | h <;> simp [processResearch, h]
  · intro freshId now userId molecule disease prefs items h
    rcases h with h | h <;> subst h <;> simp [postWatchlist]

/-- C4 witness: a whitespace-only client input, an empty-string molecule in
the research body, and an empty-string molecule in the watchlist body are
all rejected with nothing dispatched. -/
theorem emptyMoleculeRejected_witness :
    handleSubmit ("   ")
      = { errorMsg := some ("Please enter a drug or molecule name"), apiCalled := false }
    ∧ (processResearch ("req-1") ("t0") 42 (fun _ => 0)
         { molecule := some (ReqVal.jstr ("")), mode := none, provider := none }
         (UpstreamOutcome.failure ErrCode.ECONNREFUSED)).status = 400
    ∧ (processResearch ("req-1") ("t0") 42 (fun _ => 0)
         { molecule := some (ReqVal.jstr ("")), mode := none, provider := none }
         (UpstreamOutcome.failure ErrCode.ECONNREFUSED)).dispatched = false
    ∧ postWatchlist ("id-1") ("t0") ("demo-user") (some ("")) none none [] = (400, []) := by
  have h2 := emptyMoleculeRejected.2.1 ("req-1") ("t0") 42 (fun _ => 0)
    { molecule := some (ReqVal.jstr ("")), mode := none, provider := none }
    (UpstreamOutcome.failure ErrCode.ECONNREFUSED) (Or.inr rfl)
  exact ⟨emptyMoleculeRejected.1 ("   ") (by decide), h2.1, h2.2,
    emptyMoleculeRejected.2.2 ("id-1") ("t0") ("demo-user") (some ("")) none none []
      (Or.inr rfl)⟩

/-- C5 counterexample: a successful POST /api/research response does contain
success, requestId and results at top level, but processingTimeMs is not a
top-level key of the response object — it sits inside results — so the
claimed top-level key set is wrong. -/
theorem researchResponseKeys_cex :
    (processResearch ("req-1") ("t0") 42 (fun _ => 0)
       { molecule := some (ReqVal.jstr ("aspirin")), mode := none, provider := none }
       (UpstreamOutcome.failure ErrCode.ECONNREFUSED)).status = 200
    ∧ ("success" : String) ∈ topKeys (processResearch ("req-1") ("t0") 42 (fun _ => 0)
       { molecule := some (ReqVal.jstr ("aspirin")), mode := none, provider := none }
       (UpstreamOutcome.failure ErrCode.ECONNREFUSED)).body
    ∧ ("requestId" : String) ∈ topKeys (processResearch ("req-1") ("t0") 42 (fun _ => 0)
       { molecule := some (ReqVal.jstr ("aspirin")), mode := none, provider := none }
       (UpstreamOutcome.failure ErrCode.ECONNREFUSED)).body
    ∧ ("results" : String) ∈ topKeys (processResearch ("req-1") ("t0") 42 (fun _ => 0)
       { molecule := some (ReqVal.jstr ("aspirin")), mode := none, provider := none }
       (UpstreamOutcome.failure ErrCode.ECONNREFUSED)).body
    ∧ ("processingTimeMs" : String) ∉ topKeys (processResearch ("req-1") ("t0") 42 (fun _ => 0)
       { molecule := some (ReqVal.jstr ("aspirin")), mode := none, provider := none }
       (UpstreamOutcome.failure ErrCode.ECONNREFUSED)).body := by
  refine ⟨by decide, by decide, by decide, by decide, by decide⟩

/-- C5 amended: every response to POST /api/research contains the keys
success and requestId; a 200 response additionally contains results, the
results object contains the processingTimeMs key, and processingTimeMs is
not a top-level response key. -/
theorem researchResponseKeys (requestId now : String) (duration : Nat) (r : Nat → ℚ)
    (body : ResearchReq) (engine : UpstreamOutcome) :
    ("success" : String) ∈ topKeys (processResearch requestId now duration r body engine).body
    ∧ ("requestId" : String) ∈ topKeys (processResearch requestId now duration r body engine).body
    ∧ ((processResearch requestId now duration r body engine).status = 200 →
        ("results" : String) ∈ topKeys (processResearch requestId now duration r body engine).body
        ∧ ("processingTimeMs" : String)
            ∉ topKeys (processResearch requestId now duration r body engine).body
        ∧ ∃ rv, objGet (processResearch requestId now duration r body engine).body ("results")
              = some rv
            ∧ ("processingTimeMs" : String) ∈ topKeys rv) := by
  rcases hm : body.molecule with _ | v
  · refine ⟨by simp [processResearch, hm, topKeys], by simp [processResearch, hm, topKeys], ?_⟩
    intro h
    simp [processResearch, hm] at h
  · cases v with
    | jother =>
      refine ⟨by simp [processResearch, hm, topKeys], by simp [processResearch, hm, topKeys], ?_⟩
      intro h
      simp [processResearch, hm] at h
    | jstr m =>
      by_cases hm0 : m = ("" : String)
      · refine ⟨by simp [processResearch, hm, hm0, topKeys],
          by simp [processResearch, hm, hm0, topKeys], ?_⟩
        intro h
        simp [processResearch, hm, hm0] at h
      · by_cases hmode : body.mode.getD ("cloud" : String) = ("secure" : String)
            ∨ body.mode.getD ("cloud" : String) = ("cloud" : String)
        · rcases ha : analyzeCompound m requestId r engine with e | a
          · refine ⟨by simp [processResearch, hm, hm0, hmode, ha, topKeys],
              by simp [processResearch, hm, hm0, hmode, ha, topKeys], ?_⟩
            intro h
            simp [processResearch, hm, hm0, hmode, ha] at h
          · refine ⟨by simp [processResearch, hm, hm0, hmode, ha, topKeys],
              by simp [processResearch, hm, hm0, hmode, ha, topKeys], ?_⟩
            intro _
            refine ⟨by simp [processResearch, hm, hm0, hmode, ha, topKeys],
              by simp [processResearch, hm, hm0, hmode, ha, topKeys], ?_⟩
            refine ⟨jsSpread a [(("processingTimeMs" : String), JVal.num (duration : ℚ))], ?_,
              key_mem_jsSpread a _ _⟩
            simp only [processResearch, hm, hm0, hmode, ha, if_true, if_false]
            rfl
        · refine ⟨by simp [processResearch, hm, hm0, hmode, topKeys],
            by simp [processResearch, hm, hm0, hmode, topKeys], ?_⟩
          intro h
          simp [processResearch, hm, hm0, hmode] at h

/-- C5 amended witness: the same successful concrete request — success and
requestId are top-level keys, and on status 200 the results object carries
processingTimeMs while the top level does not. -/
theorem researchResponseKeys_witness :
    ("success" : String) ∈ topKeys (processResearch ("req-2") ("t1") 7 (fun _ => 0)
       { molecule := some (ReqVal.jstr ("metformin")), mode := some ("secure"), provider := none }
       (UpstreamOutcome.failure ErrCode.ETIMEDOUT)).body
    ∧ ("processingTimeMs" : String) ∉ topKeys (processResearch ("req-2") ("t1") 7 (fun _ => 0)
       { molecule := some (ReqVal.jstr ("metformin")), mode := some ("secure"), provider := none }
       (UpstreamOutcome.failure ErrCode.ETIMEDOUT)).body := by
  have h := researchResponseKeys ("req-2") ("t1") 7 (fun _ => 0)
    { molecule := some (ReqVal.jstr ("metformin")), mode := some ("secure"), provider := none }
    (UpstreamOutcome.failure ErrCode.ETIMEDOUT)
  exact ⟨h.1, (h.2.2 (by decide)).2.1⟩

/-- C8: for a nonempty molecule name, POST /api/watchlist answers 409 and
leaves the array unchanged when the same user already watches the molecule
(case-insensitively), and otherwise appends exactly the one new item — fresh
id, the given molecule, default alert preferences when none are supplied —
answering 201. -/
theorem postWatchlistSpec (freshId now userId molecule : String) (disease : Option String)
    (prefs : Option AlertPrefs) (items : List WatchItem) (hm : molecule ≠ ("" : String)) :
    (hasDuplicate userId molecule items = true →
       postWatchlist freshId now userId (some molecule) disease prefs items = (409, items))
    ∧ (hasDuplicate userId molecule items = false →
       postWatchlist freshId now userId (some molecule) disease prefs items
         = (201, items ++ [mkWatchItem freshId now userId molecule disease prefs]))
    ∧ (mkWatchItem freshId now userId molecule disease prefs).id = freshId
    ∧ (mkWatchItem freshId now userId molecule disease prefs).molecule = molecule
    ∧ (mkWatchItem freshId now userId molecule disease none).alertPreferences
        = defaultAlertPrefs := by
  refine ⟨fun h => by simp [postWatchlist, hm, h],
    fun h => by simp [postWatchlist, hm, h], rfl, rfl, rfl⟩

/-- C8 witness: adding ASPIRIN for a user already watching Aspirin answers
409 and leaves the array unchanged; adding Metformin to an empty watchlist
answers 201 and appends the one default-preference item. -/
theorem postWatchlistSpec_witness :
    postWatchlist ("id-2") ("t1") ("demo-user") (some ("ASPIRIN")) none none
      [{ id := ("w1"), userId := ("demo-user"), molecule := ("Aspirin"), disease := none,
         alertPreferences := defaultAlertPrefs, createdAt := ("t0"), lastChecked := none,
         alertCount := 0 }]
      = (409,
         [{ id := ("w1"), userId := ("demo-user"), molecule := ("Aspirin"), disease := none,
            alertPreferences := defaultAlertPrefs, createdAt := ("t0"), lastChecked := none,
            alertCount := 0 }])
    ∧ postWatchlist ("id-3") ("t2") ("demo-user") (some ("Metformin")) none none []
      = (201, [mkWatchItem ("id-3") ("t2") ("demo-user") ("Metformin") none none]) := by
  constructor
  · exact (postWatchlistSpec ("id-2") ("t1") ("demo-user") ("ASPIRIN") none none
      [{ id := ("w1"), userId := ("demo-user"), molecule := ("Aspirin"), disease := none,
         alertPreferences := defaultAlertPrefs, createdAt := ("t0"), lastChecked := none,
         alertCount := 0 }] (by decide)).1 (by decide)
  · exact ((postWatchlistSpec ("id-3") ("t2") ("demo-user") ("Metformin") none none []
      (by decide)).2.1 (by decide)).trans (by simp)

/-- C9: DELETE /api/watchlist/:id answers 404 and leaves the array unchanged
when no item has both the given id and the requesting user; when exactly one
item matches, it answers 200 and the new array is the old one with exactly
the matching items filtered out — every other item, including one with the
same id owned by another user, is kept in place. -/
theorem deleteWatchlistSpec (userId pathId : String) (items : List WatchItem) :
    ((∀ item ∈ items, (item.id == pathId && item.userId == userId) = false) →
       deleteWatchlist userId pathId items = (404, items))
    ∧ (items.countP (fun item => item.id == pathId && item.userId == userId) = 1 →
       (deleteWatchlist userId pathId items).fst = 200
       ∧ (deleteWatchlist userId pathId items).snd
           = items.filter (fun item => !(item.id == pathId && item.userId == userId))) := by
  constructor
  · intro h
    have hlen := findIdx_eq_length_of_all_false
      (fun item => item.id == pathId && item.userId == userId) items h
    simp [deleteWatchlist, hlen]
  · intro h
    have hlt := findIdx_lt_length_of_countP_pos
      (fun item => item.id == pathId && item.userId == userId) items (by omega)
    have hne : items.findIdx (fun item => item.id == pathId && item.userId == userId)
        ≠ items.length := Nat.ne_of_lt hlt
    have he := eraseIdx_findIdx_eq_filter
      (fun item => item.id == pathId && item.userId == userId) items h
    exact ⟨by simp [deleteWatchlist, hne], by simp [deleteWatchlist, hne, he]⟩

/-- C9 witness: two items share the id dup but belong to different users;
deleting dup as demo-user removes only demo-user's item and keeps the other
user's item, and deleting an absent id answers 404 with the array
unchanged. -/
theorem deleteWatchlistSpec_witness :
    (deleteWatchlist ("demo-user") ("dup")
      [{ id := ("dup"), userId := ("other-user"), molecule := ("Aspirin"), disease := none,
         alertPreferences := defaultAlertPrefs, createdAt := ("t0"), lastChecked := none,
         alertCount := 0 },
       { id := ("dup"), userId := ("demo-user"), molecule := ("Aspirin"), disease := none,
         alertPreferences := defaultAlertPrefs, createdAt := ("t1"), lastChecked := none,
         alertCount := 0 }]).fst = 200
    ∧ (deleteWatchlist ("demo-user") ("dup")
      [{ id := ("dup"), userId := ("other-user"), molecule := ("Aspirin"), disease := none,
         alertPreferences := defaultAlertPrefs, createdAt := ("t0"), lastChecked := none,
         alertCount := 0 },
       { id := ("dup"), userId := ("demo-user"), molecule := ("Aspirin"), disease := none,
         alertPreferences := defaultAlertPrefs, createdAt := ("t1"), lastChecked := none,
         alertCount := 0 }]).snd
      = [{ id := ("dup"), userId := ("other-user"), molecule := ("Aspirin"), disease := none,
           alertPreferences := defaultAlertPrefs, createdAt := ("t0"), lastChecked := none,
           alertCount := 0 }]
    ∧ deleteWatchlist ("demo-user") ("missing")
      [{ id := ("dup"), userId := ("other-user"), molecule := ("Aspirin"), disease := none,
         alertPreferences := defaultAlertPrefs, createdAt := ("t0"), lastChecked := none,
         alertCount := 0 }]
      = (404,
         [{ id := ("dup"), userId := ("other-user"), molecule := ("Aspirin"), disease := none,
            alertPreferences := defaultAlertPrefs, createdAt := ("t0"), lastChecked := none,
            alertCount := 0 }]) := by
  have h := (deleteWatchlistSpec ("demo-user") ("dup")
    [{ id := ("dup"), userId := ("other-user"), molecule := ("Aspirin"), disease := none,
       alertPreferences := defaultAlertPrefs, createdAt := ("t0"), lastChecked := none,
       alertCount := 0 },
     { id := ("dup"), userId := ("demo-user"), molecule := ("Aspirin"), disease := none,
       alertPreferences := defaultAlertPrefs, createdAt := ("t1"), lastChecked := none,
       alertCount := 0 }]).2 (by decide)
  refine ⟨h.1, h.2.trans (by decide), ?_⟩
  exact (deleteWatchlistSpec ("demo-user") ("missing")
    [{ id := ("dup"), userId := ("other-user"), molecule := ("Aspirin"), disease := none,
       alertPreferences := defaultAlertPrefs, createdAt := ("t0"), lastChecked := none,
       alertCount := 0 }]).1 (by decide)

